/-
Verification of the analytics engine of the carbon-emission energy backend
(`energy_backend/app/services/calculations.py`).

Modelling conventions:
* Python floats are modelled by `ℚ` (the concrete values in the spec are
  exactly representable and every arithmetic step here is exact on them).
* Python `int` is modelled by `Int`.
* Functions that read the record store (`storage.list_bills()`) are
  parameterised by the record list `recs : List BillingRecord` instead.
* `list.sort(key=lambda p: (p.year, p.month))` (a stable sort by the
  lexicographic period key) is modelled by `List.insertionSort` with the
  lexicographic key relation; insertion sort is stable, so the two agree.
* Python negative-size `range`/slice semantics are captured with `Int.toNat`.
-/
import Mathlib

namespace EnergyAnalytics

/-- `BillRead` of `schemas.py`, restricted to the fields the engine reads. -/
structure BillingRecord where
  year : Int
  month : Int
  kilowatt_hours : ℚ
  cost : ℚ
  emission_factor_kg_per_kwh : ℚ
deriving DecidableEq, Repr

/-- `UsagePoint` of `schemas.py`. -/
structure UsagePoint where
  year : Int
  month : Int
  kilowatt_hours : ℚ
  cost : ℚ
  emissions_kg : ℚ
deriving DecidableEq, Repr

/-- `UsageSummary` of `schemas.py`. -/
structure UsageSummary where
  total_kwh : ℚ
  total_cost : ℚ
  total_emissions_kg : ℚ
  average_kwh : ℚ
  average_cost : ℚ
  average_emissions_kg : ℚ
deriving DecidableEq, Repr

/-- `TrendPoint` of `schemas.py`. -/
structure TrendPoint where
  year : Int
  month : Int
  kilowatt_hours : ℚ
  month_over_month_delta_kwh : Option ℚ
  moving_average_3mo_kwh : Option ℚ
deriving DecidableEq, Repr

/-- `TrendAnalysis` of `schemas.py`. -/
structure TrendAnalysis where
  points : List TrendPoint
deriving DecidableEq, Repr

/-- `PredictionPoint` of `schemas.py`. -/
structure PredictionPoint where
  year : Int
  month : Int
  predicted_kwh : ℚ
deriving DecidableEq, Repr

/-- `PredictionResult` of `schemas.py`. -/
structure PredictionResult where
  horizon_months : Int
  predictions : List PredictionPoint
deriving DecidableEq, Repr

/-- `AdviceItem` of `schemas.py`. -/
structure AdviceItem where
  title : String
  detail : String
deriving DecidableEq, Repr

/-- `AdviceBundle` of `schemas.py`. -/
structure AdviceBundle where
  tips : List AdviceItem
deriving DecidableEq, Repr

/-- Lexicographic order on the `(year, month)` key of a usage point: the
comparison Python performs on the tuple `(p.year, p.month)`. -/
def keyLE (p q : UsagePoint) : Prop :=
  p.year < q.year ∨ (p.year = q.year ∧ p.month ≤ q.month)

instance : DecidableRel keyLE := fun p q => by unfold keyLE; infer_instance

/-- Reversed key order, for `sort(..., reverse=True)`. -/
def keyGE (p q : UsagePoint) : Prop := keyLE q p

instance : DecidableRel keyGE := fun p q => by unfold keyGE keyLE; infer_instance

instance : IsTotal UsagePoint keyLE :=
  ⟨fun p q => by unfold keyLE; omega⟩

instance : IsTrans UsagePoint keyLE :=
  ⟨fun p q r hpq hqr => by unfold keyLE at *; omega⟩

instance : IsTotal UsagePoint keyGE :=
  ⟨fun p q => by unfold keyGE; exact IsTotal.total (r := keyLE) q p⟩

instance : IsTrans UsagePoint keyGE :=
  ⟨fun p q r hpq hqr => by
    unfold keyGE at *; exact IsTrans.trans (r := keyLE) r q p hqr hpq⟩

/-- `pts.sort(key=lambda p: (p.year, p.month))`. -/
def sortAsc (pts : List UsagePoint) : List UsagePoint :=
  List.insertionSort keyLE pts

/-- `pts.sort(key=lambda p: (p.year, p.month), reverse=True)`. -/
def sortDesc (pts : List UsagePoint) : List UsagePoint :=
  List.insertionSort keyGE pts

/-- `_emissions_kg` of `calculations.py`. -/
def _emissions_kg (kwh factor : ℚ) : ℚ := kwh * factor

/-- `get_usage_points` of `calculations.py`, with the storage contents as
the explicit argument. -/
def get_usage_points (recs : List BillingRecord) : List UsagePoint :=
  recs.map fun b =>
    { year := b.year
      month := b.month
      kilowatt_hours := b.kilowatt_hours
      cost := b.cost
      emissions_kg := _emissions_kg b.kilowatt_hours b.emission_factor_kg_per_kwh }

/-- `get_recent_usage` of `calculations.py`: sort descending by period and
take the first `max(0, limit)` points. -/
def get_recent_usage (recs : List BillingRecord) (limit : Int) : List UsagePoint :=
  (sortDesc (get_usage_points recs)).take (max 0 limit).toNat

/-- `build_summary` of `calculations.py`. -/
def build_summary (recs : List BillingRecord) : UsageSummary :=
  let pts := get_usage_points recs
  if pts = [] then
    { total_kwh := 0, total_cost := 0, total_emissions_kg := 0
      average_kwh := 0, average_cost := 0, average_emissions_kg := 0 }
  else
    let total_kwh := (pts.map (·.kilowatt_hours)).sum
    let total_cost := (pts.map (·.cost)).sum
    let total_emissions := (pts.map (·.emissions_kg)).sum
    let n : ℚ := pts.length
    { total_kwh := total_kwh, total_cost := total_cost
      total_emissions_kg := total_emissions
      average_kwh := total_kwh / n, average_cost := total_cost / n
      average_emissions_kg := total_emissions / n }

/-- One `TrendPoint` of the `analyze_trends` loop body, at index `idx` of the
sorted point list `s` whose kWh series is `kwh_series`. -/
def mkTrendPoint (s : List UsagePoint) (kwh_series : List ℚ) (idx : ℕ)
    (p : UsagePoint) : TrendPoint :=
  { year := p.year
    month := p.month
    kilowatt_hours := p.kilowatt_hours
    month_over_month_delta_kwh :=
      if 0 < idx then (s[idx - 1]?).map fun q => p.kilowatt_hours - q.kilowatt_hours
      else none
    moving_average_3mo_kwh :=
      if 2 ≤ idx then some (((kwh_series.drop (idx - 2)).take 3).sum / 3)
      else none }

/-- `analyze_trends` of `calculations.py`: the `enumerate` loop becomes a map
over `List.enum`. -/
def analyze_trends (recs : List BillingRecord) : TrendAnalysis :=
  let pts := sortAsc (get_usage_points recs)
  let kwh_series := pts.map (·.kilowatt_hours)
  ⟨pts.enum.map fun ip => mkTrendPoint pts kwh_series ip.1 ip.2⟩

/-- `_linear_regression_predict` of `calculations.py`.  The Python loop
`for h in range(1, horizon + 1)` appending `a + b * (n + h)` becomes a map
over `List.range horizon.toNat` (with `h` zero-based, hence `h + 1`). -/
def _linear_regression_predict (y_values : List ℚ) (horizon : Int) : List ℚ :=
  let n := y_values.length
  if n = 0 then
    List.replicate horizon.toNat 0
  else
    let x_vals : List ℚ := (List.range n).map fun i : ℕ => (i : ℚ) + 1
    let mean_x := x_vals.sum / (n : ℚ)
    let mean_y := y_values.sum / (n : ℚ)
    let ss_xy := ((x_vals.zip y_values).map fun p => (p.1 - mean_x) * (p.2 - mean_y)).sum
    let ss_xx := (x_vals.map fun x => (x - mean_x) ^ 2).sum
    if ss_xx = 0 then
      -- All x are same (n == 1). Predict flat line.
      List.replicate horizon.toNat (y_values.getLastD 0)
    else
      let b := ss_xy / ss_xx
      let a := mean_y - b * mean_x
      (List.range horizon.toNat).map fun h : ℕ => a + b * ((n : ℚ) + ((h : ℚ) + 1))

/-- The period-assignment loop of `predict_usage`: starting from
`(year, month)`, each value advances the month by one (rolling 12→1 with a
year increment) and is clamped to `max 0`. -/
def assignPeriods : Int → Int → List ℚ → List PredictionPoint
  | _, _, [] => []
  | year, month, v :: vs =>
    let month' := month + 1
    if month' > 12 then
      ⟨year + 1, 1, max 0 v⟩ :: assignPeriods (year + 1) 1 vs
    else
      ⟨year, month', max 0 v⟩ :: assignPeriods year month' vs

/-- `predict_usage` of `calculations.py`. -/
def predict_usage (recs : List BillingRecord) (horizon_months : Int) : PredictionResult :=
  let pts := sortAsc (get_usage_points recs)
  let y_values := pts.map (·.kilowatt_hours)
  let preds := _linear_regression_predict y_values horizon_months
  let start : Int × Int :=
    match pts.getLast? with
    | some p => (p.year, p.month)
    | none => (2000, 1)
  ⟨horizon_months, assignPeriods start.1 start.2 preds⟩

/-- Placeholder usage point for the (unreachable) out-of-range accesses that
Python performs as guarded indexing (`sorted(pts)[-1]`, `last3[0]`,
`last3[2]`); every use below is guarded by the same emptiness/length checks
as the source. -/
def dummyPoint : UsagePoint := ⟨0, 0, 0, 0, 0⟩

/-- `generate_advice` of `calculations.py`. -/
def generate_advice (recs : List BillingRecord) : AdviceBundle :=
  let pts := get_usage_points recs
  if pts = [] then
    ⟨[⟨"Add data", "Submit recent bills to unlock insights and advice."⟩]⟩
  else
    let latest := (sortAsc pts).getLastD dummyPoint
    let cost_per_kwh :=
      if latest.kilowatt_hours > 0 then latest.cost / latest.kilowatt_hours else 0
    let tips₁ : List AdviceItem :=
      if cost_per_kwh > 0.15 then
        [⟨"High cost per kWh",
          "Consider switching to a time-of-use plan, shifting heavy loads to off-peak, or auditing for phantom loads (standby electronics)."⟩]
      else []
    let last3 := (sortAsc pts).drop (pts.length - 3)
    let tips₂ : List AdviceItem :=
      if 3 ≤ pts.length then
        if (last3.getD 2 dummyPoint).kilowatt_hours > (last3.getD 0 dummyPoint).kilowatt_hours then
          [⟨"Rising energy usage",
            "Usage is trending up. Check HVAC filters, lighting schedules, and appliance efficiency. Seal drafts and consider LED retrofits."⟩]
        else []
      else []
    let total_kwh := (pts.map (·.kilowatt_hours)).sum
    let total_emissions := (pts.map (·.emissions_kg)).sum
    let avg_emission_factor :=
      if total_kwh > 0 then total_emissions / total_kwh else 0
    let tips₃ : List AdviceItem :=
      if avg_emission_factor ≥ 0.6 then
        [⟨"Carbon intensity is high",
          "Your grid has relatively high CO2e/kWh. Consider rooftop solar or purchasing green energy credits."⟩]
      else []
    ⟨tips₁ ++ tips₂ ++ tips₃ ++
      [⟨"Quick wins",
        "Set thermostats efficiently (24-26°C cooling, 19-21°C heating), use smart power strips, and schedule appliances."⟩]⟩

/-!  ### OLS closed form

The slope/intercept formulas below appear verbatim both in
`_linear_regression_predict` and in the spec (§4.3): slope
`b = Σ(x-meanX)(y-meanY) / Σ(x-meanX)²`, intercept `a = meanY - b·meanX`,
with `x = 1..n` the 1-based index of the sorted points. -/

/-- Mean of the regression x-values `1..n`. -/
def olsMeanX (n : ℕ) : ℚ := (((List.range n).map fun i : ℕ => (i : ℚ) + 1).sum) / n

/-- Mean of the y-values. -/
def olsMeanY (ys : List ℚ) : ℚ := ys.sum / ys.length

/-- `Σ (x - meanX) * (y - meanY)` over the indexed series. -/
def olsSSxy (ys : List ℚ) : ℚ :=
  ((((List.range ys.length).map fun i : ℕ => (i : ℚ) + 1).zip ys).map
    fun p => (p.1 - olsMeanX ys.length) * (p.2 - olsMeanY ys)).sum

/-- `Σ (x - meanX) ^ 2` over the x-values `1..n`. -/
def olsSSxx (ys : List ℚ) : ℚ :=
  (((List.range ys.length).map fun i : ℕ => (i : ℚ) + 1).map
    fun x => (x - olsMeanX ys.length) ^ 2).sum

/-- OLS slope `b = ss_xy / ss_xx`. -/
def olsSlope (ys : List ℚ) : ℚ := olsSSxy ys / olsSSxx ys

/-- OLS intercept `a = meanY - b * meanX`. -/
def olsIntercept (ys : List ℚ) : ℚ :=
  olsMeanY ys - olsSlope ys * olsMeanX ys.length

/-!  ### Helper lemmas -/

lemma length_get_usage_points (recs : List BillingRecord) :
    (get_usage_points recs).length = recs.length := by
  simp [get_usage_points]

lemma length_sortAsc (pts : List UsagePoint) : (sortAsc pts).length = pts.length :=
  (List.perm_insertionSort keyLE pts).length_eq

lemma length_sortDesc (pts : List UsagePoint) : (sortDesc pts).length = pts.length :=
  (List.perm_insertionSort keyGE pts).length_eq

lemma sortAsc_nonempty (pts : List UsagePoint) (h : pts ≠ []) : sortAsc pts ≠ [] := by
  intro hc
  apply h
  have hlen := length_sortAsc pts
  rw [hc] at hlen
  exact List.length_eq_zero.mp hlen.symm

lemma assignPeriods_map_kwh (y m : Int) (vs : List ℚ) :
    (assignPeriods y m vs).map (·.predicted_kwh) = vs.map fun v => max 0 v := by
  induction vs generalizing y m with
  | nil => rfl
  | cons v vs ih =>
    unfold assignPeriods
    by_cases h : m + 1 > 12 <;> simp [h, ih]

lemma length_linreg (ys : List ℚ) (horizon : Int) :
    (_linear_regression_predict ys horizon).length = horizon.toNat := by
  unfold _linear_regression_predict
  dsimp only
  split
  · rw [List.length_replicate]
  · split
    · rw [List.length_replicate]
    · rw [List.length_map, List.length_range]

/-- For any centre `m`, the sum of squared deviations of `1..n` from `m` is
positive as soon as `n ≥ 2` (two distinct x-values cannot both equal `m`). -/
lemma sum_sq_dev_pos (m : ℚ) (n : ℕ) (hn : 2 ≤ n) :
    0 < (((List.range n).map fun i : ℕ => (i : ℚ) + 1).map fun x => (x - m) ^ 2).sum := by
  have hrw : (((List.range n).map fun i : ℕ => (i : ℚ) + 1).map fun x => (x - m) ^ 2) =
      (List.range n).map fun i : ℕ => ((i : ℚ) + 1 - m) ^ 2 := by
    simp [List.map_map, Function.comp_def]
  rw [hrw]
  have hnonneg : ∀ x ∈ (List.range n).map fun i : ℕ => ((i : ℚ) + 1 - m) ^ 2, 0 ≤ x := by
    intro x hx
    obtain ⟨i, -, rfl⟩ := List.mem_map.mp hx
    positivity
  rcases eq_or_ne m 1 with hm | hm
  · have hmem1 : (1 : ℕ) ∈ List.range n := List.mem_range.mpr (by omega)
    have h1 := List.mem_map_of_mem (fun i : ℕ => ((i : ℚ) + 1 - m) ^ 2) hmem1
    have hle := List.single_le_sum hnonneg _ h1
    have hpos : (0 : ℚ) < (((1 : ℕ) : ℚ) + 1 - m) ^ 2 := by
      rw [hm]; norm_num
    exact lt_of_lt_of_le hpos hle
  · have hmem0 : (0 : ℕ) ∈ List.range n := List.mem_range.mpr (by omega)
    have h0 := List.mem_map_of_mem (fun i : ℕ => ((i : ℚ) + 1 - m) ^ 2) hmem0
    have hle := List.single_le_sum hnonneg _ h0
    have hne : ((0 : ℕ) : ℚ) + 1 - m ≠ 0 := by
      intro hc
      exact hm (by push_cast at hc ⊢; linarith)
    have hpos : (0 : ℚ) < (((0 : ℕ) : ℚ) + 1 - m) ^ 2 := by positivity
    exact lt_of_lt_of_le hpos hle

/-- With at least two data points the regression takes its main branch and
returns the closed-form forecasts `a + b * (n + h)` for `h = 1..horizon`. -/
lemma linreg_of_two_le (ys : List ℚ) (horizon : Int) (h2 : 2 ≤ ys.length) :
    _linear_regression_predict ys horizon =
      (List.range horizon.toNat).map fun h : ℕ =>
        olsIntercept ys + olsSlope ys * ((ys.length : ℚ) + ((h : ℚ) + 1)) := by
  have h0 : ys.length ≠ 0 := by omega
  have hss : olsSSxx ys ≠ 0 := ne_of_gt (sum_sq_dev_pos (olsMeanX ys.length) ys.length h2)
  unfold _linear_regression_predict
  simp only [h0, if_false]
  rw [if_neg (by simpa [olsSSxx, olsMeanX] using hss)]
  simp [olsIntercept, olsSlope, olsSSxy, olsSSxx, olsMeanX, olsMeanY]

/-- The spec's worked regression example: records `(2023,1,100)`,
`(2023,2,200)`, `(2023,3,300)`. -/
def exRecs3 : List BillingRecord :=
  [⟨2023, 1, 100, 10, 1⟩, ⟨2023, 2, 200, 10, 1⟩, ⟨2023, 3, 300, 10, 1⟩]

/-- The spec's single-point example: `(2023, 5)` with `kwh = 100`,
`cost = 20`, emission factor `0.7`. -/
def exRec1 : BillingRecord := ⟨2023, 5, 100, 20, 0.7⟩

/-- A December record, for the month-rollover example. -/
def exRecDec : BillingRecord := ⟨2023, 12, 100, 10, 1⟩

/-- C1 (counterexample): the claim says the first prediction of
`predict([], 3)` is for period `2001-01`; the code seeds at `2000-01` and
advances one month, so the first predicted period is `2000-02`. -/
theorem C1_counterexample :
    ¬ ((predict_usage [] 3).predictions.map fun p => (p.year, p.month)).head? =
        some (2001, 1) := by decide

/-- C1 (amended): `predict` on an empty record collection with horizon 3
returns exactly 3 predictions, every `predictedKwh` is `0.0`, and the first
prediction's period is `2000-02` (one month after the `2000-01` seed), with
subsequent predictions advancing month by month. -/
theorem C1_predict_empty :
    (predict_usage [] 3).predictions =
      [⟨2000, 2, 0⟩, ⟨2000, 3, 0⟩, ⟨2000, 4, 0⟩] := by decide

/-- C2: for every record list with at least 2 points, each prediction value
of `predict` at (zero-based) future step `h` equals
`max 0 (a + b * (n + (h+1)))`, where `b`/`a` are the OLS slope/intercept of
the kWh series of the points sorted ascending by `(year, month)` against the
1-based index `x = 1..n` (`olsSlope`/`olsIntercept` spell out exactly the
spec's formulas `b = Σ(x-meanX)(y-meanY)/Σ(x-meanX)²`, `a = meanY - b·meanX`). -/
theorem C2_ols_forecast (recs : List BillingRecord) (horizon : Int)
    (h2 : 2 ≤ recs.length) :
    (predict_usage recs horizon).predictions.map (·.predicted_kwh) =
      (List.range horizon.toNat).map fun h : ℕ =>
        max 0 (olsIntercept ((sortAsc (get_usage_points recs)).map (·.kilowatt_hours)) +
          olsSlope ((sortAsc (get_usage_points recs)).map (·.kilowatt_hours)) *
            ((recs.length : ℚ) + ((h : ℚ) + 1))) := by
  have hys : ((sortAsc (get_usage_points recs)).map (·.kilowatt_hours)).length =
      recs.length := by
    rw [List.length_map, length_sortAsc, length_get_usage_points]
  unfold predict_usage
  dsimp only
  rw [assignPeriods_map_kwh, linreg_of_two_le _ _ (by rw [hys]; exact h2),
    List.map_map]
  simp [Function.comp_def, hys]

/-- C2 witness: on the spec's worked example (three records rising by 100
each month) with horizon 1 the forecast is exactly `400.0` for `2023-04`. -/
theorem C2_ols_forecast_witness :
    2 ≤ exRecs3.length ∧
    ((predict_usage exRecs3 1).predictions.map (·.predicted_kwh) =
      (List.range (1 : Int).toNat).map fun h : ℕ =>
        max 0 (olsIntercept ((sortAsc (get_usage_points exRecs3)).map (·.kilowatt_hours)) +
          olsSlope ((sortAsc (get_usage_points exRecs3)).map (·.kilowatt_hours)) *
            ((exRecs3.length : ℚ) + ((h : ℚ) + 1)))) ∧
    (predict_usage exRecs3 1).predictions = [⟨2023, 4, 400⟩] :=
  ⟨by norm_num [exRecs3], C2_ols_forecast exRecs3 1 (by norm_num [exRecs3]),
   by norm_num [exRecs3, predict_usage, get_usage_points, _emissions_kg, sortAsc,
     List.insertionSort, List.orderedInsert, keyLE, _linear_regression_predict,
     List.range_succ, assignPeriods]⟩

/-- C6: a collection with exactly one record predicts the observed kWh value
unchanged (flat continuation) at every horizon step.  The hypothesis
`0 ≤ kilowattHours` is the data-model invariant (`kilowattHours > 0`);
without it the `max 0` clamp would alter a negative value. -/
theorem C6_single_record_flat (r : BillingRecord) (horizon : Int)
    (hk : 0 ≤ r.kilowatt_hours) :
    (predict_usage [r] horizon).predictions.map (·.predicted_kwh) =
      List.replicate horizon.toNat r.kilowatt_hours := by
  unfold predict_usage
  dsimp only
  rw [assignPeriods_map_kwh]
  have hsort : sortAsc (get_usage_points [r]) = get_usage_points [r] := by
    simp [sortAsc, get_usage_points, List.insertionSort]
  rw [hsort]
  norm_num [get_usage_points, _emissions_kg, _linear_regression_predict,
    List.range_succ, List.range_zero]
  exact Or.inr hk

/-- C6 witness: the single record `(2023, 5, 100 kWh)` with horizon 2 yields
predictions `[100.0, 100.0]` for months `2023-06` and `2023-07`. -/
theorem C6_single_record_flat_witness :
    0 ≤ exRec1.kilowatt_hours ∧
    ((predict_usage [exRec1] 2).predictions.map (·.predicted_kwh) =
      List.replicate (2 : Int).toNat exRec1.kilowatt_hours) ∧
    (predict_usage [exRec1] 2).predictions = [⟨2023, 6, 100⟩, ⟨2023, 7, 100⟩] :=
  ⟨by norm_num [exRec1], C6_single_record_flat exRec1 2 (by norm_num [exRec1]),
   by norm_num [exRec1, predict_usage, get_usage_points, _emissions_kg, sortAsc,
     List.insertionSort, List.orderedInsert, keyLE, _linear_regression_predict,
     List.range_succ, assignPeriods]⟩

/-- C8: whenever the chronologically latest point's month is 12, `predict`
with horizon 1 assigns the single prediction to `(year + 1, 1)` — month 12
rolls over to 1 with the year incremented. -/
theorem C8_december_rollover (recs : List BillingRecord) (p : UsagePoint)
    (hlast : (sortAsc (get_usage_points recs)).getLast? = some p)
    (hm : p.month = 12) :
    (predict_usage recs 1).predictions.map (fun q => (q.year, q.month)) =
      [(p.year + 1, 1)] := by
  unfold predict_usage
  dsimp only
  rw [hlast]
  dsimp only
  have hlen : (_linear_regression_predict
      ((sortAsc (get_usage_points recs)).map (·.kilowatt_hours)) 1).length = 1 := by
    rw [length_linreg]; rfl
  obtain ⟨v, hv⟩ := List.length_eq_one.mp hlen
  rw [hv, hm]
  norm_num [assignPeriods]

/-- C8 witness: forecasting from last known period `(2023, 12)` with
horizon 1 yields period `(2024, 1)`. -/
theorem C8_december_rollover_witness :
    (sortAsc (get_usage_points [exRecDec])).getLast? = some ⟨2023, 12, 100, 10, 100⟩ ∧
    (predict_usage [exRecDec] 1).predictions.map (fun q => (q.year, q.month)) =
      [(2024, 1)] := by
  have hlast : (sortAsc (get_usage_points [exRecDec])).getLast? =
      some ⟨2023, 12, 100, 10, 100⟩ := by
    norm_num [exRecDec, sortAsc, get_usage_points, _emissions_kg,
      List.insertionSort, List.orderedInsert]
  exact ⟨hlast, by simpa using C8_december_rollover [exRecDec] _ hlast rfl⟩

lemma gup_ne_nil {recs : List BillingRecord} (h : recs ≠ []) :
    get_usage_points recs ≠ [] := by
  simpa [get_usage_points, List.map_eq_nil_iff] using h

/-- C4: `advise` on empty input returns exactly the one "add data" tip, and
on the single point with `cost = 20`, `kwh = 100` (cost per kWh `0.2 > 0.15`)
and emission factor `0.7` (average factor `0.7 ≥ 0.6`) returns exactly 3 tips
in order: high-cost, carbon-intensity, always-on (rising-usage skipped since
fewer than 3 points exist). -/
theorem C4_advice_examples :
    (generate_advice []).tips =
      [⟨"Add data", "Submit recent bills to unlock insights and advice."⟩] ∧
    (generate_advice [exRec1]).tips.map (·.title) =
      ["High cost per kWh", "Carbon intensity is high", "Quick wins"] := by
  constructor
  · rfl
  · norm_num [exRec1, generate_advice, get_usage_points, _emissions_kg, sortAsc,
      List.insertionSort, List.orderedInsert, keyLE]

/-- Shape of `build_summary` on a non-empty record list. -/
lemma build_summary_nonempty (recs : List BillingRecord) (h : recs ≠ []) :
    build_summary recs =
      { total_kwh := ((get_usage_points recs).map (·.kilowatt_hours)).sum
        total_cost := ((get_usage_points recs).map (·.cost)).sum
        total_emissions_kg := ((get_usage_points recs).map (·.emissions_kg)).sum
        average_kwh := ((get_usage_points recs).map (·.kilowatt_hours)).sum /
          ((get_usage_points recs).length : ℚ)
        average_cost := ((get_usage_points recs).map (·.cost)).sum /
          ((get_usage_points recs).length : ℚ)
        average_emissions_kg := ((get_usage_points recs).map (·.emissions_kg)).sum /
          ((get_usage_points recs).length : ℚ) } := by
  unfold build_summary
  dsimp only
  rw [if_neg (gup_ne_nil h)]

/-- C5: `summarize` of the empty list returns all six fields `0.0` (never a
division-by-zero error); on every non-empty list each total is the field sum
and each average is that total divided by the point count; and `n` identical
records with kWh `k` yield `totalKwh = n·k` and `averageKwh = k`. -/
theorem C5_summary (n : ℕ) (r : BillingRecord) (recs : List BillingRecord)
    (hn : 0 < n) (hrecs : recs ≠ []) :
    build_summary [] = ⟨0, 0, 0, 0, 0, 0⟩ ∧
    (build_summary recs).total_kwh = ((get_usage_points recs).map (·.kilowatt_hours)).sum ∧
    (build_summary recs).total_cost = ((get_usage_points recs).map (·.cost)).sum ∧
    (build_summary recs).total_emissions_kg = ((get_usage_points recs).map (·.emissions_kg)).sum ∧
    (build_summary recs).average_kwh = (build_summary recs).total_kwh / (recs.length : ℚ) ∧
    (build_summary recs).average_cost = (build_summary recs).total_cost / (recs.length : ℚ) ∧
    (build_summary recs).average_emissions_kg =
      (build_summary recs).total_emissions_kg / (recs.length : ℚ) ∧
    (build_summary (List.replicate n r)).total_kwh = (n : ℚ) * r.kilowatt_hours ∧
    (build_summary (List.replicate n r)).average_kwh = r.kilowatt_hours := by
  have hrep : (List.replicate n r : List BillingRecord) ≠ [] := by
    intro hc
    have := congrArg List.length hc
    simp at this
    omega
  have hlen := length_get_usage_points recs
  have hkwh : ((get_usage_points (List.replicate n r)).map (·.kilowatt_hours)).sum =
      (n : ℚ) * r.kilowatt_hours := by
    simp [get_usage_points, List.map_replicate, List.sum_replicate, nsmul_eq_mul]
  have hn' : (n : ℚ) ≠ 0 := by exact_mod_cast hn.ne'
  have hbs := build_summary_nonempty recs hrecs
  have hbr := build_summary_nonempty _ hrep
  refine ⟨by rfl, ?_, ?_, ?_, ?_, ?_, ?_, ?_, ?_⟩
  · rw [hbs]
  · rw [hbs]
  · rw [hbs]
  · rw [hbs, hlen]
  · rw [hbs, hlen]
  · rw [hbs, hlen]
  · rw [hbr]
    exact hkwh
  · rw [hbr]
    dsimp only
    rw [hkwh, length_get_usage_points, List.length_replicate]
    exact mul_div_cancel_left₀ _ hn'

/-- C5 witness: two identical records with kWh 100 give total 200 and
average 100. -/
theorem C5_summary_witness :
    0 < 2 ∧ ([exRec1] : List BillingRecord) ≠ [] ∧
    (build_summary (List.replicate 2 exRec1)).total_kwh = ((2 : ℕ) : ℚ) * exRec1.kilowatt_hours ∧
    (build_summary (List.replicate 2 exRec1)).average_kwh = exRec1.kilowatt_hours :=
  ⟨by decide, by decide,
   (C5_summary 2 exRec1 [exRec1] (by decide) (by decide)).2.2.2.2.2.2.2.1,
   (C5_summary 2 exRec1 [exRec1] (by decide) (by decide)).2.2.2.2.2.2.2.2⟩

/-- C9: `recent` sorts the projected points descending by `(year, month)` and
returns the first `max(0, limit)` of them: for `limit ≤ 0` the result is
empty (not an error), the result length is `min (max 0 limit) n`, the result
is sorted descending, and it is an initial segment of the descending-sorted
projection. -/
theorem C9_recent (recs : List BillingRecord) (limit : Int) :
    (limit ≤ 0 → get_recent_usage recs limit = []) ∧
    (get_recent_usage recs limit).length = min (max 0 limit).toNat recs.length ∧
    List.Sorted keyGE (get_recent_usage recs limit) ∧
    ∃ rest, get_recent_usage recs limit ++ rest = sortDesc (get_usage_points recs) := by
  refine ⟨?_, ?_, ?_, ?_⟩
  · intro hl
    have hmax : max 0 limit = 0 := max_eq_left hl
    simp [get_recent_usage, hmax]
  · simp [get_recent_usage, List.length_take, length_sortDesc, length_get_usage_points]
  · exact List.Pairwise.sublist (List.take_sublist _ _)
      (List.sorted_insertionSort keyGE (get_usage_points recs))
  · exact ⟨(sortDesc (get_usage_points recs)).drop (max 0 limit).toNat,
      List.take_append_drop _ _⟩

/-- C9 witness: a negative limit yields the empty sequence. -/
theorem C9_recent_witness :
    (-1 : Int) ≤ 0 ∧ get_recent_usage [exRecDec] (-1) = [] :=
  ⟨by decide, (C9_recent [exRecDec] (-1)).1 (by decide)⟩

lemma tips_shape (a b c : List AdviceItem) (q : AdviceItem)
    (ha : a.length ≤ 1) (hb : b.length ≤ 1) (hc : c.length ≤ 1) :
    1 ≤ (a ++ b ++ c ++ [q]).length ∧ (a ++ b ++ c ++ [q]).length ≤ 4 ∧
    (a ++ b ++ c ++ [q]).getLast? = some q ∧
    (a ++ b ++ c ++ [q]).dropLast = a ++ b ++ c := by
  refine ⟨?_, ?_, List.getLast?_concat _, List.dropLast_concat⟩
  · simp only [List.length_append, List.length_singleton]
    omega
  · simp only [List.length_append, List.length_singleton]
    omega

/-- Decomposition of the advice tips on non-empty input: three conditional
single-tip segments (with fixed titles) followed by the unconditional
"Quick wins" tip. -/
lemma generate_advice_decomp (recs : List BillingRecord) (h : recs ≠ []) :
    ∃ a b c : List AdviceItem, a.length ≤ 1 ∧ b.length ≤ 1 ∧ c.length ≤ 1 ∧
      (∀ t ∈ a, t.title = "High cost per kWh") ∧
      (∀ t ∈ b, t.title = "Rising energy usage") ∧
      (∀ t ∈ c, t.title = "Carbon intensity is high") ∧
      (generate_advice recs).tips = a ++ b ++ c ++
        [⟨"Quick wins",
          "Set thermostats efficiently (24-26°C cooling, 19-21°C heating), use smart power strips, and schedule appliances."⟩] := by
  unfold generate_advice
  dsimp only
  rw [if_neg (gup_ne_nil h)]
  refine ⟨_, _, _, ?_, ?_, ?_, ?_, ?_, ?_, rfl⟩ <;> (try split) <;> (try split) <;> simp

/-- C10: `advise` always returns between 1 and 4 tips; the empty list yields
exactly the "add data" tip; every non-empty list ends with the unconditional
"Quick wins" tip, preceded only by (at most) the three conditional tips. -/
theorem C10_advice_bounds (recs : List BillingRecord) :
    1 ≤ (generate_advice recs).tips.length ∧
    (generate_advice recs).tips.length ≤ 4 ∧
    (recs = [] → (generate_advice recs).tips.map (·.title) = ["Add data"]) ∧
    (recs ≠ [] →
      ((generate_advice recs).tips.getLast?).map (·.title) = some "Quick wins" ∧
      ∀ t ∈ (generate_advice recs).tips.dropLast,
        t.title ∈ ["High cost per kWh", "Rising energy usage", "Carbon intensity is high"]) := by
  by_cases hr : recs = []
  · subst hr
    refine ⟨by decide, by decide, fun _ => by rfl, fun hc => absurd rfl hc⟩
  · obtain ⟨a, b, c, ha, hb, hc, hta, htb, htc, htips⟩ := generate_advice_decomp recs hr
    obtain ⟨h1, h4, hlast, hdrop⟩ := tips_shape a b c _ ha hb hc
    rw [htips]
    refine ⟨h1, h4, fun hc' => absurd hc' hr, fun _ => ⟨by rw [hlast]; rfl, ?_⟩⟩
    rw [hdrop]
    intro t ht
    rcases List.mem_append.mp ht with ht' | htc'
    · rcases List.mem_append.mp ht' with hta' | htb'
      · simp [hta t hta']
      · simp [htb t htb']
    · simp [htc t htc']

/-- C10 witness: on a concrete one-record input the bundle has 3 tips ending
in "Quick wins". -/
theorem C10_advice_bounds_witness :
    ([exRec1] : List BillingRecord) ≠ [] ∧
    ((generate_advice [exRec1]).tips.getLast?).map (·.title) = some "Quick wins" :=
  ⟨by decide, ((C10_advice_bounds [exRec1]).2.2.2 (by decide)).1⟩

/-- The `(year, month)` lexicographic order on trend points. -/
def trendLE (a b : TrendPoint) : Prop :=
  a.year < b.year ∨ (a.year = b.year ∧ a.month ≤ b.month)

/-- Characterisation of the trend points by index. -/
lemma analyze_trends_getElem (recs : List BillingRecord) (i : ℕ) :
    (analyze_trends recs).points[i]? =
      ((sortAsc (get_usage_points recs))[i]?).map
        (mkTrendPoint (sortAsc (get_usage_points recs))
          ((sortAsc (get_usage_points recs)).map (·.kilowatt_hours)) i) := by
  unfold analyze_trends
  dsimp only
  rw [List.getElem?_map, List.getElem?_enum, Option.map_map]
  rfl

lemma sum_take3 {l : List ℚ} {i : ℕ} {x y z : ℚ}
    (h0 : l[i]? = some x) (h1 : l[i + 1]? = some y) (h2 : l[i + 2]? = some z) :
    ((l.drop i).take 3).sum = x + y + z := by
  obtain ⟨hi0, e0⟩ := List.getElem?_eq_some_iff.mp h0
  obtain ⟨hi1, e1⟩ := List.getElem?_eq_some_iff.mp h1
  obtain ⟨hi2, e2⟩ := List.getElem?_eq_some_iff.mp h2
  rw [List.drop_eq_getElem_cons hi0, e0, List.drop_eq_getElem_cons hi1, e1,
    List.drop_eq_getElem_cons hi2, e2]
  simp [List.take_succ_cons]
  ring

/-- C3: `analyzeTrends` returns one point per input record, ordered ascending
by `(year, month)`; the point at index 0 has no delta and no moving average,
the point at index 1 has no moving average; for `i > 0` the delta is
`points[i].kwh - points[i-1].kwh` and for `i ≥ 2` the moving average is the
mean of the kWh of points `i-2`, `i-1`, `i` (indices in the sorted order). -/
theorem C3_trends (recs : List BillingRecord) :
    (analyze_trends recs).points.length = recs.length ∧
    List.Sorted trendLE (analyze_trends recs).points ∧
    (∀ p, (analyze_trends recs).points[0]? = some p →
      p.month_over_month_delta_kwh = none ∧ p.moving_average_3mo_kwh = none) ∧
    (∀ p, (analyze_trends recs).points[1]? = some p →
      p.moving_average_3mo_kwh = none) ∧
    (∀ i p a b, (analyze_trends recs).points[i + 1]? = some p →
      (sortAsc (get_usage_points recs))[i]? = some a →
      (sortAsc (get_usage_points recs))[i + 1]? = some b →
      p.month_over_month_delta_kwh = some (b.kilowatt_hours - a.kilowatt_hours)) ∧
    (∀ i p a b c, (analyze_trends recs).points[i + 2]? = some p →
      (sortAsc (get_usage_points recs))[i]? = some a →
      (sortAsc (get_usage_points recs))[i + 1]? = some b →
      (sortAsc (get_usage_points recs))[i + 2]? = some c →
      p.moving_average_3mo_kwh =
        some ((a.kilowatt_hours + b.kilowatt_hours + c.kilowatt_hours) / 3)) := by
  refine ⟨?_, ?_, ?_, ?_, ?_, ?_⟩
  · unfold analyze_trends
    dsimp only
    rw [List.length_map, List.enum_length, length_sortAsc, length_get_usage_points]
  · have hs : List.Sorted keyLE (sortAsc (get_usage_points recs)) :=
      List.sorted_insertionSort keyLE (get_usage_points recs)
    unfold analyze_trends
    dsimp only
    rw [List.Sorted, List.pairwise_map]
    have hs' : List.Pairwise (fun a b : ℕ × UsagePoint => keyLE a.2 b.2)
        (sortAsc (get_usage_points recs)).enum := by
      rw [List.Sorted] at hs
      rw [← List.enum_map_snd (sortAsc (get_usage_points recs))] at hs
      exact (List.pairwise_map).mp hs
    exact hs'.imp fun h => by simpa [mkTrendPoint, trendLE, keyLE] using h
  · intro p hp
    rw [analyze_trends_getElem] at hp
    obtain ⟨a, -, rfl⟩ := Option.map_eq_some'.mp hp
    simp [mkTrendPoint]
  · intro p hp
    rw [analyze_trends_getElem] at hp
    obtain ⟨a, -, rfl⟩ := Option.map_eq_some'.mp hp
    simp [mkTrendPoint]
  · intro i p a b hp ha hb
    rw [analyze_trends_getElem] at hp
    obtain ⟨b', hb', rfl⟩ := Option.map_eq_some'.mp hp
    rw [hb] at hb'
    cases Option.some.inj hb'
    simp [mkTrendPoint, ha]
  · intro i p a b c hp ha hb hc
    rw [analyze_trends_getElem] at hp
    obtain ⟨c', hc', rfl⟩ := Option.map_eq_some'.mp hp
    rw [hc] at hc'
    cases Option.some.inj hc'
    have hka : ((sortAsc (get_usage_points recs)).map (·.kilowatt_hours))[i]? =
        some a.kilowatt_hours := by rw [List.getElem?_map, ha]; rfl
    have hkb : ((sortAsc (get_usage_points recs)).map (·.kilowatt_hours))[i + 1]? =
        some b.kilowatt_hours := by rw [List.getElem?_map, hb]; rfl
    have hkc : ((sortAsc (get_usage_points recs)).map (·.kilowatt_hours))[i + 2]? =
        some c.kilowatt_hours := by rw [List.getElem?_map, hc]; rfl
    show (if 2 ≤ i + 2 then _ else none) = _
    rw [if_pos (by omega : 2 ≤ i + 2)]
    have hidx : i + 2 - 2 = i := by omega
    rw [hidx, sum_take3 hka hkb hkc]

/-- C3 witness: on the three-record example the trend point at index 2 has
moving average `(100 + 200 + 300) / 3 = 200`. -/
theorem C3_trends_witness :
    (analyze_trends exRecs3).points.length = exRecs3.length ∧
    ((⟨2023, 3, 300, some 100, some 200⟩ : TrendPoint).moving_average_3mo_kwh =
      some (((100 : ℚ) + 200 + 300) / 3)) := by
  have hs : sortAsc (get_usage_points exRecs3) =
      [⟨2023, 1, 100, 10, 100⟩, ⟨2023, 2, 200, 10, 200⟩, ⟨2023, 3, 300, 10, 300⟩] := by
    norm_num [exRecs3, sortAsc, get_usage_points, _emissions_kg,
      List.insertionSort, List.orderedInsert, keyLE]
  have hp : (analyze_trends exRecs3).points[2]? =
      some ⟨2023, 3, 300, some 100, some 200⟩ := by
    rw [analyze_trends_getElem, hs]
    norm_num [mkTrendPoint]
  refine ⟨(C3_trends exRecs3).1, ?_⟩
  exact (C3_trends exRecs3).2.2.2.2.2 0 ⟨2023, 3, 300, some 100, some 200⟩
    ⟨2023, 1, 100, 10, 100⟩ ⟨2023, 2, 200, 10, 200⟩ ⟨2023, 3, 300, 10, 300⟩
    hp (by rw [hs]; rfl) (by rw [hs]; rfl) (by rw [hs]; rfl)

lemma mem_title_cond (c : Prop) [Decidable c] (t : AdviceItem) (str : String) :
    (str ∈ ((if c then [t] else []).map (·.title))) ↔ (c ∧ str = t.title) := by
  by_cases hC : c <;> simp [hC]

lemma mem_title_cond₂ (c d : Prop) [Decidable c] [Decidable d] (t : AdviceItem)
    (str : String) :
    (str ∈ ((if c then (if d then [t] else []) else []).map (·.title))) ↔
      (c ∧ d ∧ str = t.title) := by
  by_cases hC : c <;> by_cases hD : d <;> simp [hC, hD]

/-- C7: the rising-usage tip is emitted iff at least 3 points exist and, in
the trailing 3-window of the points sorted ascending by `(year, month)`, the
latest point's kWh strictly exceeds the earliest-of-the-three's kWh (the
middle point is ignored); with fewer than 3 points the rule is skipped. -/
theorem C7_rising_rule (recs : List BillingRecord) :
    ("Rising energy usage" ∈ (generate_advice recs).tips.map (·.title)) ↔
      (3 ≤ recs.length ∧
       ∃ a b c, (sortAsc (get_usage_points recs)).drop (recs.length - 3) = [a, b, c] ∧
         a.kilowatt_hours < c.kilowatt_hours) := by
  by_cases hr : recs = []
  · subst hr
    simp [generate_advice, get_usage_points]
  · unfold generate_advice
    dsimp only
    rw [if_neg (gup_ne_nil hr)]
    dsimp only
    rw [List.map_append, List.map_append, List.map_append]
    simp only [List.mem_append, mem_title_cond, mem_title_cond₂, List.map_cons,
      List.map_nil, List.mem_cons, List.not_mem_nil, or_false]
    have hstr₁ : ("Rising energy usage" = "High cost per kWh") = False := by
      simp
    have hstr₃ : ("Rising energy usage" = "Carbon intensity is high") = False := by
      simp
    have hstr₄ : ("Rising energy usage" = "Quick wins") = False := by simp
    rw [hstr₁, hstr₃, hstr₄]
    simp only [and_false, false_or, or_false, and_true]
    rw [length_get_usage_points]
    constructor
    · rintro ⟨h3, hgt⟩
      have hlen3 : ((sortAsc (get_usage_points recs)).drop (recs.length - 3)).length = 3 := by
        rw [List.length_drop, length_sortAsc, length_get_usage_points]
        omega
      obtain ⟨a, b, c, habc⟩ := List.length_eq_three.mp hlen3
      rw [habc] at hgt
      exact ⟨h3, a, b, c, habc, by simpa using hgt⟩
    · rintro ⟨h3, a, b, c, habc, hlt⟩
      refine ⟨h3, ?_⟩
      rw [habc]
      simpa using hlt

/-- C7 witness: with three strictly rising points the tip is present. -/
theorem C7_rising_rule_witness :
    "Rising energy usage" ∈ (generate_advice exRecs3).tips.map (·.title) := by
  refine (C7_rising_rule exRecs3).mpr ⟨by norm_num [exRecs3], ⟨2023, 1, 100, 10, 100⟩,
    ⟨2023, 2, 200, 10, 200⟩, ⟨2023, 3, 300, 10, 300⟩, ?_, by norm_num⟩
  norm_num [exRecs3, sortAsc, get_usage_points, _emissions_kg,
    List.insertionSort, List.orderedInsert, keyLE]

end EnergyAnalytics
